import Mathlib

/-!
Verification of the affordability engine of the college-debt-vs-salary
calculator (src/src/App.tsx).  The engine is the pure computation inside the
`App` component: from the four inputs (total debt, annual salary, annual
interest rate in percent, repayment term in years) it derives a
debt-to-income ratio, an amortized monthly payment, a payment-to-income
percentage, and a three-tier affordability status.  Numbers are modelled as
rationals; the repayment term, produced by `parseInt` in the source and
specified as a non-negative integer, is modelled as a natural number.
-/

/-- The four user-supplied inputs (interface `DebtInput` in src/src/App.tsx). -/
structure DebtInput where
  totalDebt : ℚ
  annualSalary : ℚ
  interestRate : ℚ
  repaymentTerm : ℕ
  deriving DecidableEq, Repr

/-- The three affordability statuses, the string values `'Comfortable'`,
`'Moderate'`, `'Stretched'` assigned to `affordabilityStatus` in the source. -/
inductive AffordStatus where
  | Comfortable : AffordStatus
  | Moderate : AffordStatus
  | Stretched : AffordStatus
  deriving DecidableEq, Repr

/-- Source: `const monthlyRate = values.interestRate / 100 / 12;` -/
def monthlyRate (v : DebtInput) : ℚ :=
  v.interestRate / 100 / 12

/-- Source: `const totalPayments = values.repaymentTerm * 12;` -/
def totalPayments (v : DebtInput) : ℕ :=
  v.repaymentTerm * 12

/-- The three-branch assignment to `monthlyPayment` in the source:
`let monthlyPayment = 0; if (monthlyRate > 0 && totalPayments > 0) {...}
else if (totalPayments > 0) {...}`. -/
def monthlyPayment (v : DebtInput) : ℚ :=
  if 0 < monthlyRate v ∧ 0 < totalPayments v then
    (v.totalDebt * monthlyRate v * (1 + monthlyRate v) ^ totalPayments v) /
      ((1 + monthlyRate v) ^ totalPayments v - 1)
  else if 0 < totalPayments v then
    v.totalDebt / (totalPayments v : ℚ)
  else 0

/-- Source: `const debtToIncomeRatio = values.annualSalary > 0 ?
values.totalDebt / values.annualSalary : 0;` -/
def debtToIncomeRatio (v : DebtInput) : ℚ :=
  if 0 < v.annualSalary then v.totalDebt / v.annualSalary else 0

/-- Source: `const monthlyGrossIncome = values.annualSalary / 12;` -/
def monthlyGrossIncome (v : DebtInput) : ℚ :=
  v.annualSalary / 12

/-- Source: `const paymentToIncomeRatio = monthlyGrossIncome > 0 ?
(monthlyPayment / monthlyGrossIncome) * 100 : 0;` -/
def paymentToIncomeRatio (v : DebtInput) : ℚ :=
  if 0 < monthlyGrossIncome v then (monthlyPayment v / monthlyGrossIncome v) * 100
  else 0

/-- The affordability indicator of the source: `Comfortable` by default,
overridden to `Stretched` when the ratio is `> 20`, else to `Moderate`
when it is `> 10`. -/
def classifyAfford (r : ℚ) : AffordStatus :=
  if 20 < r then AffordStatus.Stretched
  else if 10 < r then AffordStatus.Moderate
  else AffordStatus.Comfortable

/-- The result record of the engine (spec type `AffordabilityResult`). -/
structure AffordabilityResult where
  debtToIncomeRatio : ℚ
  monthlyPayment : ℚ
  paymentToIncomeRatio : ℚ
  affordabilityStatus : AffordStatus
  deriving DecidableEq, Repr

/-- The whole engine: the derived values computed by the `App` component
body from the current input snapshot. -/
def compute (v : DebtInput) : AffordabilityResult :=
  { debtToIncomeRatio := debtToIncomeRatio v
    monthlyPayment := monthlyPayment v
    paymentToIncomeRatio := paymentToIncomeRatio v
    affordabilityStatus := classifyAfford (paymentToIncomeRatio v) }

/-! ### Helper lemmas -/

/-- With a positive monthly rate and at least one payment, the amortization
denominator is positive. -/
theorem amortDenom_pos {r : ℚ} {n : ℕ} (hr : 0 < r) (hn : 0 < n) :
    0 < (1 + r) ^ n - 1 := by
  have h1 : (1 : ℚ) < 1 + r := by linarith
  have := one_lt_pow₀ h1 (Nat.pos_iff_ne_zero.mp hn)
  linarith

/-! ### Claims -/

/-- Claim C2: the affordability classification assigns exactly one of the
three statuses, by strict thresholds evaluated in order: above 20 is
Stretched, above 10 and at most 20 is Moderate, otherwise Comfortable;
in particular a ratio of exactly 10 is Comfortable and exactly 20 is
Moderate. -/
theorem classifyAfford_thresholds (r : ℚ) :
    (classifyAfford r = AffordStatus.Stretched ↔ 20 < r) ∧
    (classifyAfford r = AffordStatus.Moderate ↔ 10 < r ∧ r ≤ 20) ∧
    (classifyAfford r = AffordStatus.Comfortable ↔ r ≤ 10) ∧
    classifyAfford 10 = AffordStatus.Comfortable ∧
    classifyAfford 20 = AffordStatus.Moderate := by
  unfold classifyAfford
  refine ⟨?_, ?_, ?_, by norm_num, by norm_num⟩
  · split <;> rename_i h1
    · simp [h1]
    · split <;> simp <;> linarith
  · split <;> rename_i h1
    · constructor
      · intro h; cases h
      · rintro ⟨-, h2⟩; linarith
    · split <;> rename_i h2
      · simp; constructor <;> linarith
      · simp; intro h3; linarith
  · split <;> rename_i h1
    · constructor
      · intro h; cases h
      · intro h2; linarith
    · split <;> rename_i h2
      · constructor
        · intro h; cases h
        · intro h3; linarith
      · simp; linarith

/-- Claim C3: with a zero annual salary the engine returns a zero
debt-to-income ratio and a zero payment-to-income ratio, whatever the other
inputs are. -/
theorem zero_salary_zero_ratios (v : DebtInput) (hs : v.annualSalary = 0) :
    debtToIncomeRatio v = 0 ∧ paymentToIncomeRatio v = 0 := by
  constructor
  · unfold debtToIncomeRatio
    rw [hs]
    norm_num
  · unfold paymentToIncomeRatio monthlyGrossIncome
    rw [hs]
    norm_num

/-- Witness for C3 at the concrete input of spec scenario D. -/
theorem zero_salary_zero_ratios_witness :
    debtToIncomeRatio ⟨10000, 0, 5, 10⟩ = 0 ∧
    paymentToIncomeRatio ⟨10000, 0, 5, 10⟩ = 0 :=
  zero_salary_zero_ratios ⟨10000, 0, 5, 10⟩ rfl

/-- Claim C7: the engine is a pure function of its input: two invocations
on an identical input produce identical results. -/
theorem compute_deterministic (v₁ v₂ : DebtInput) (h : v₁ = v₂) :
    compute v₁ = compute v₂ := by
  rw [h]

/-- Witness for C7 at the default input of the source. -/
theorem compute_deterministic_witness :
    compute ⟨45000, 55000, 13/2, 10⟩ = compute ⟨45000, 55000, 13/2, 10⟩ :=
  compute_deterministic ⟨45000, 55000, 13/2, 10⟩ ⟨45000, 55000, 13/2, 10⟩ rfl

/-- Claim C8: on the input of spec scenario B (debt 20000, salary 80000,
zero interest, five-year term) the engine yields a monthly payment of
20000/60, a payment-to-income ratio of exactly 5, and status Comfortable. -/
theorem scenarioB :
    monthlyPayment ⟨20000, 80000, 0, 5⟩ = 20000 / 60 ∧
    paymentToIncomeRatio ⟨20000, 80000, 0, 5⟩ = 5 ∧
    (compute ⟨20000, 80000, 0, 5⟩).affordabilityStatus =
      AffordStatus.Comfortable := by
  refine ⟨?_, ?_, ?_⟩ <;>
    norm_num [compute, paymentToIncomeRatio, monthlyGrossIncome, monthlyPayment,
      monthlyRate, totalPayments, debtToIncomeRatio, classifyAfford]

/-- Claim C9: the debt-to-income ratio reads only the total debt and the
annual salary; inputs agreeing on those two fields get the same ratio no
matter their interest rate or repayment term. -/
theorem dti_depends_only_on_debt_salary (v₁ v₂ : DebtInput)
    (hd : v₁.totalDebt = v₂.totalDebt)
    (hs : v₁.annualSalary = v₂.annualSalary) :
    debtToIncomeRatio v₁ = debtToIncomeRatio v₂ := by
  unfold debtToIncomeRatio
  rw [hd, hs]

/-- Witness for C9: two inputs sharing debt and salary but with different
rates and terms. -/
theorem dti_depends_only_on_debt_salary_witness :
    debtToIncomeRatio ⟨45000, 55000, 13/2, 10⟩ =
    debtToIncomeRatio ⟨45000, 55000, 3, 25⟩ :=
  dti_depends_only_on_debt_salary ⟨45000, 55000, 13/2, 10⟩ ⟨45000, 55000, 3, 25⟩
    rfl rfl

/-- The per-dollar payment factor: `monthlyPayment` is `totalDebt` times this
quantity, which depends only on the interest rate and the term. -/
def payFactor (v : DebtInput) : ℚ :=
  if 0 < monthlyRate v ∧ 0 < totalPayments v then
    monthlyRate v * (1 + monthlyRate v) ^ totalPayments v /
      ((1 + monthlyRate v) ^ totalPayments v - 1)
  else if 0 < totalPayments v then 1 / (totalPayments v : ℚ)
  else 0

theorem monthlyPayment_eq_debt_mul_payFactor (v : DebtInput) :
    monthlyPayment v = v.totalDebt * payFactor v := by
  unfold monthlyPayment payFactor
  split
  · rw [mul_assoc, mul_div_assoc]
  · split
    · rw [mul_one_div]
    · rw [mul_zero]

theorem payFactor_congr (v₁ v₂ : DebtInput)
    (hr : v₁.interestRate = v₂.interestRate)
    (ht : v₁.repaymentTerm = v₂.repaymentTerm) :
    payFactor v₁ = payFactor v₂ := by
  unfold payFactor monthlyRate totalPayments
  rw [hr, ht]

theorem payFactor_nonneg (v : DebtInput) : 0 ≤ payFactor v := by
  unfold payFactor
  split
  · rename_i h
    have hD := amortDenom_pos h.1 h.2
    have hr0 : (0 : ℚ) ≤ monthlyRate v := le_of_lt h.1
    have hp0 : (0 : ℚ) ≤ (1 + monthlyRate v) ^ totalPayments v :=
      pow_nonneg (by linarith) _
    exact div_nonneg (mul_nonneg hr0 hp0) (le_of_lt hD)
  · split
    · exact div_nonneg zero_le_one (Nat.cast_nonneg _)
    · exact le_refl 0

theorem monthlyPayment_nonneg (v : DebtInput) (hd : 0 ≤ v.totalDebt) :
    0 ≤ monthlyPayment v := by
  rw [monthlyPayment_eq_debt_mul_payFactor]
  exact mul_nonneg hd (payFactor_nonneg v)

/-- Claim C1: for every non-negative input the monthly payment follows the
three-branch definition with the stated precedence: the interest-bearing
amortization formula when the monthly rate and the payment count are both
positive, the straight-line division when only the payment count is
positive, and zero otherwise. -/
theorem monthlyPayment_branches (v : DebtInput)
    (hd : 0 ≤ v.totalDebt) (hs : 0 ≤ v.annualSalary)
    (hr : 0 ≤ v.interestRate) :
    monthlyPayment v =
      if 0 < v.interestRate / 100 / 12 ∧ 0 < v.repaymentTerm * 12 then
        v.totalDebt * (v.interestRate / 100 / 12) *
            (1 + v.interestRate / 100 / 12) ^ (v.repaymentTerm * 12) /
          ((1 + v.interestRate / 100 / 12) ^ (v.repaymentTerm * 12) - 1)
      else if 0 < v.repaymentTerm * 12 then
        v.totalDebt / ((v.repaymentTerm * 12 : ℕ) : ℚ)
      else 0 := by
  unfold monthlyPayment monthlyRate totalPayments
  rfl

/-- Witness for C1 at a concrete non-negative input. -/
theorem monthlyPayment_branches_witness :
    monthlyPayment ⟨45000, 55000, 13/2, 10⟩ =
      if 0 < (13 / 2 : ℚ) / 100 / 12 ∧ 0 < 10 * 12 then
        45000 * ((13 / 2 : ℚ) / 100 / 12) *
            (1 + (13 / 2 : ℚ) / 100 / 12) ^ (10 * 12) /
          ((1 + (13 / 2 : ℚ) / 100 / 12) ^ (10 * 12) - 1)
      else if 0 < 10 * 12 then (45000 : ℚ) / ((10 * 12 : ℕ) : ℚ)
      else 0 :=
  monthlyPayment_branches ⟨45000, 55000, 13/2, 10⟩ (by norm_num) (by norm_num)
    (by norm_num)

/-- Claim C4: with the salary, the rate and the term held fixed, a larger
non-negative total debt never decreases the monthly payment, the
debt-to-income ratio, or the payment-to-income ratio. -/
theorem monotone_in_totalDebt (v₁ v₂ : DebtInput)
    (hs : v₁.annualSalary = v₂.annualSalary)
    (hr : v₁.interestRate = v₂.interestRate)
    (ht : v₁.repaymentTerm = v₂.repaymentTerm)
    (hd₁ : 0 ≤ v₁.totalDebt) (hdd : v₁.totalDebt ≤ v₂.totalDebt) :
    monthlyPayment v₁ ≤ monthlyPayment v₂ ∧
    debtToIncomeRatio v₁ ≤ debtToIncomeRatio v₂ ∧
    paymentToIncomeRatio v₁ ≤ paymentToIncomeRatio v₂ := by
  have hpay : monthlyPayment v₁ ≤ monthlyPayment v₂ := by
    rw [monthlyPayment_eq_debt_mul_payFactor, monthlyPayment_eq_debt_mul_payFactor,
      payFactor_congr v₁ v₂ hr ht]
    exact mul_le_mul_of_nonneg_right hdd (payFactor_nonneg v₂)
  refine ⟨hpay, ?_, ?_⟩
  · unfold debtToIncomeRatio
    rw [hs]
    split
    · rename_i h
      exact (div_le_div_right h).mpr hdd
    · exact le_refl 0
  · unfold paymentToIncomeRatio monthlyGrossIncome
    rw [hs]
    split
    · rename_i h
      exact mul_le_mul_of_nonneg_right ((div_le_div_right h).mpr hpay) (by norm_num)
    · exact le_refl 0

/-- Witness for C4: raising the debt from 20000 to 30000 with the other
inputs fixed. -/
theorem monotone_in_totalDebt_witness :
    monthlyPayment ⟨20000, 80000, 0, 5⟩ ≤ monthlyPayment ⟨30000, 80000, 0, 5⟩ ∧
    debtToIncomeRatio ⟨20000, 80000, 0, 5⟩ ≤
      debtToIncomeRatio ⟨30000, 80000, 0, 5⟩ ∧
    paymentToIncomeRatio ⟨20000, 80000, 0, 5⟩ ≤
      paymentToIncomeRatio ⟨30000, 80000, 0, 5⟩ :=
  monotone_in_totalDebt ⟨20000, 80000, 0, 5⟩ ⟨30000, 80000, 0, 5⟩ rfl rfl rfl
    (by norm_num) (by norm_num)

/-- Claim C5: for every non-negative input all three numeric outputs are
non-negative. -/
theorem outputs_nonneg (v : DebtInput) (hd : 0 ≤ v.totalDebt)
    (hs : 0 ≤ v.annualSalary) (hr : 0 ≤ v.interestRate) :
    0 ≤ debtToIncomeRatio v ∧ 0 ≤ monthlyPayment v ∧
    0 ≤ paymentToIncomeRatio v := by
  have hpay := monthlyPayment_nonneg v hd
  refine ⟨?_, hpay, ?_⟩
  · unfold debtToIncomeRatio
    split
    · rename_i h
      exact div_nonneg hd (le_of_lt h)
    · exact le_refl 0
  · unfold paymentToIncomeRatio
    split
    · rename_i h
      exact mul_nonneg (div_nonneg hpay (le_of_lt h)) (by norm_num)
    · exact le_refl 0

/-- Witness for C5 at the default input of the source. -/
theorem outputs_nonneg_witness :
    0 ≤ debtToIncomeRatio ⟨45000, 55000, 13/2, 10⟩ ∧
    0 ≤ monthlyPayment ⟨45000, 55000, 13/2, 10⟩ ∧
    0 ≤ paymentToIncomeRatio ⟨45000, 55000, 13/2, 10⟩ :=
  outputs_nonneg ⟨45000, 55000, 13/2, 10⟩ (by norm_num) (by norm_num) (by norm_num)

/-- Division that fails instead of defaulting when the denominator is zero,
used to model each division the source performs. -/
def div? (a b : ℚ) : Option ℚ :=
  if b = 0 then none else some (a / b)

/-- The engine with every division checked: it mirrors the source
computation step for step, but returns `none` as soon as a division with a
zero denominator would be performed. -/
def computeChecked (v : DebtInput) : Option AffordabilityResult :=
  (if 0 < v.annualSalary then div? v.totalDebt v.annualSalary
   else some 0).bind fun dti =>
  (div? v.interestRate 100).bind fun r100 =>
  (div? r100 12).bind fun mr =>
  (if 0 < mr ∧ 0 < v.repaymentTerm * 12 then
      div? (v.totalDebt * mr * (1 + mr) ^ (v.repaymentTerm * 12))
        ((1 + mr) ^ (v.repaymentTerm * 12) - 1)
    else if 0 < v.repaymentTerm * 12 then
      div? v.totalDebt ((v.repaymentTerm * 12 : ℕ) : ℚ)
    else some 0).bind fun mp =>
  (div? v.annualSalary 12).bind fun mgi =>
  (if 0 < mgi then (div? mp mgi).map fun q => q * 100
   else some 0).bind fun pti =>
  some ⟨dti, mp, pti, classifyAfford pti⟩

/-- Claim C6: the engine is total for non-negative inputs: every division it
performs has a non-zero denominator, so the checked computation never fails
and returns exactly the result of the engine. -/
theorem compute_total (v : DebtInput) (hd : 0 ≤ v.totalDebt)
    (hs : 0 ≤ v.annualSalary) (hr : 0 ≤ v.interestRate) :
    computeChecked v = some (compute v) := by
  unfold computeChecked compute div? debtToIncomeRatio paymentToIncomeRatio
    monthlyGrossIncome monthlyPayment monthlyRate totalPayments
  have h100 : (100 : ℚ) ≠ 0 := by norm_num
  have h12 : (12 : ℚ) ≠ 0 := by norm_num
  have hiff : 0 < v.interestRate / 100 / 12 ↔ 0 < v.interestRate := by
    rw [div_div, div_pos_iff]
    norm_num
  by_cases hrp : 0 < v.interestRate
  all_goals by_cases hn : 0 < v.repaymentTerm * 12
  all_goals by_cases hsp : 0 < v.annualSalary
  all_goals
    first
    | (have hden := amortDenom_pos (hiff.mpr hrp) hn
       have hmgi : 0 < v.annualSalary / 12 := by positivity
       simp [hrp, hn, hsp, hiff, h100, h12, ne_of_gt hsp, ne_of_gt hden,
         hmgi, ne_of_gt hmgi])
    | (have hden := amortDenom_pos (hiff.mpr hrp) hn
       have hs0 : v.annualSalary = 0 := le_antisymm (not_lt.mp hsp) hs
       simp [hrp, hn, hs0, hiff, h100, h12, ne_of_gt hden])
    | (have hnne : ((v.repaymentTerm * 12 : ℕ) : ℚ) ≠ 0 := by
         exact_mod_cast Nat.pos_iff_ne_zero.mp hn
       have ht0 : ¬ v.repaymentTerm = 0 := by omega
       have hmgi : 0 < v.annualSalary / 12 := by positivity
       simp [hrp, hn, hsp, hiff, h100, h12, ne_of_gt hsp, hnne, ht0,
         hmgi, ne_of_gt hmgi])
    | (have hnne : ((v.repaymentTerm * 12 : ℕ) : ℚ) ≠ 0 := by
         exact_mod_cast Nat.pos_iff_ne_zero.mp hn
       have ht0 : ¬ v.repaymentTerm = 0 := by omega
       have hs0 : v.annualSalary = 0 := le_antisymm (not_lt.mp hsp) hs
       simp [hrp, hn, hs0, hiff, h100, h12, hnne, ht0])
    | (have hmgi : 0 < v.annualSalary / 12 := by positivity
       simp [hrp, hn, hsp, hiff, h100, h12, ne_of_gt hsp, hmgi, ne_of_gt hmgi])
    | (have hs0 : v.annualSalary = 0 := le_antisymm (not_lt.mp hsp) hs
       simp [hrp, hn, hs0, hiff, h100, h12])

/-- Witness for C6 at the default input of the source. -/
theorem compute_total_witness :
    computeChecked ⟨45000, 55000, 13/2, 10⟩ =
      some (compute ⟨45000, 55000, 13/2, 10⟩) :=
  compute_total ⟨45000, 55000, 13/2, 10⟩ (by norm_num) (by norm_num) (by norm_num)

/-- The geometric sum `1 + (1+r) + ... + (1+r)^(n-1)` is positive for a
non-negative rate and a positive payment count. -/
theorem geomSum_pos {r : ℚ} (hr : 0 ≤ r) {n : ℕ} (hn : 0 < n) :
    0 < ∑ k ∈ Finset.range n, (1 + r) ^ k := by
  apply Finset.sum_pos
  · intro k _
    have h1 : (0 : ℚ) < 1 + r := by linarith
    positivity
  · exact Finset.nonempty_range_iff.mpr (Nat.pos_iff_ne_zero.mp hn)

/-- The amortization factor rewritten over the geometric sum: for a positive
rate, `r (1+r)^n / ((1+r)^n - 1) = (1+r)^n / Σ(1+r)^k`. -/
theorem amort_eq_pow_div_geomSum {r : ℚ} (hr : 0 < r) (n : ℕ) :
    r * (1 + r) ^ n / ((1 + r) ^ n - 1) =
      (1 + r) ^ n / ∑ k ∈ Finset.range n, (1 + r) ^ k := by
  have hgeom : (∑ k ∈ Finset.range n, (1 + r) ^ k) * r = (1 + r) ^ n - 1 := by
    have h := geom_sum_mul (1 + r) n
    simpa using h
  rw [← hgeom, mul_comm (∑ k ∈ Finset.range n, (1 + r) ^ k) r,
    mul_div_mul_left _ _ (ne_of_gt hr)]

/-- The per-dollar amortization factor `(1+r)^n / Σ(1+r)^k` is monotone in
the rate. -/
theorem pow_div_geomSum_mono {r₁ r₂ : ℚ} (h₁ : 0 ≤ r₁) (h₁₂ : r₁ ≤ r₂)
    {n : ℕ} (hn : 0 < n) :
    (1 + r₁) ^ n / (∑ k ∈ Finset.range n, (1 + r₁) ^ k) ≤
      (1 + r₂) ^ n / (∑ k ∈ Finset.range n, (1 + r₂) ^ k) := by
  have h₂ : 0 ≤ r₂ := le_trans h₁ h₁₂
  have hS₁ := geomSum_pos h₁ hn
  have hS₂ := geomSum_pos h₂ hn
  rw [div_le_div_iff hS₁ hS₂, Finset.mul_sum, Finset.mul_sum]
  apply Finset.sum_le_sum
  intro k hk
  have hk' : k ≤ n := le_of_lt (Finset.mem_range.mp hk)
  have e₁ : (1 + r₁) ^ n = (1 + r₁) ^ k * (1 + r₁) ^ (n - k) := by
    rw [← pow_add]
    congr 1
    omega
  have e₂ : (1 + r₂) ^ n = (1 + r₂) ^ k * (1 + r₂) ^ (n - k) := by
    rw [← pow_add]
    congr 1
    omega
  have hb₁ : (0 : ℚ) ≤ (1 + r₁) ^ k := pow_nonneg (by linarith) k
  have hb₂ : (0 : ℚ) ≤ (1 + r₂) ^ k := pow_nonneg (by linarith) k
  have hp : (1 + r₁) ^ (n - k) ≤ (1 + r₂) ^ (n - k) :=
    pow_le_pow_left (by linarith) (by linarith) _
  calc (1 + r₁) ^ n * (1 + r₂) ^ k
      = ((1 + r₁) ^ k * (1 + r₂) ^ k) * (1 + r₁) ^ (n - k) := by rw [e₁]; ring
    _ ≤ ((1 + r₁) ^ k * (1 + r₂) ^ k) * (1 + r₂) ^ (n - k) :=
        mul_le_mul_of_nonneg_left hp (mul_nonneg hb₁ hb₂)
    _ = (1 + r₂) ^ n * (1 + r₁) ^ k := by rw [e₂]; ring

/-- The straight-line factor `1/n` is a lower bound of the amortization
factor at any non-negative rate. -/
theorem one_div_le_pow_div_geomSum {r : ℚ} (hr : 0 ≤ r) {n : ℕ} (hn : 0 < n) :
    1 / (n : ℚ) ≤ (1 + r) ^ n / ∑ k ∈ Finset.range n, (1 + r) ^ k := by
  have hS := geomSum_pos hr hn
  have hn' : (0 : ℚ) < (n : ℚ) := by exact_mod_cast hn
  rw [div_le_div_iff hn' hS, one_mul]
  have hsum : (∑ k ∈ Finset.range n, (1 + r) ^ k) ≤
      ∑ _k ∈ Finset.range n, (1 + r) ^ n := by
    apply Finset.sum_le_sum
    intro k hk
    exact pow_le_pow_right₀ (by linarith) (le_of_lt (Finset.mem_range.mp hk))
  rw [Finset.sum_const, Finset.card_range, nsmul_eq_mul] at hsum
  calc (∑ k ∈ Finset.range n, (1 + r) ^ k) ≤ (n : ℚ) * (1 + r) ^ n := hsum
    _ = (1 + r) ^ n * (n : ℚ) := mul_comm _ _

/-- The per-dollar payment factor is monotone in the interest rate when the
term is positive. -/
theorem payFactor_mono (v₁ v₂ : DebtInput)
    (ht : v₁.repaymentTerm = v₂.repaymentTerm) (htpos : 0 < v₁.repaymentTerm)
    (hr₁ : 0 ≤ v₁.interestRate) (hr₁₂ : v₁.interestRate ≤ v₂.interestRate) :
    payFactor v₁ ≤ payFactor v₂ := by
  have hρ₁ : 0 ≤ monthlyRate v₁ := by
    unfold monthlyRate
    positivity
  have hρ₁₂ : monthlyRate v₁ ≤ monthlyRate v₂ := by
    unfold monthlyRate
    gcongr
  have hn₁ : 0 < totalPayments v₁ := by
    unfold totalPayments
    omega
  have hn₂ : totalPayments v₂ = totalPayments v₁ := by
    unfold totalPayments
    omega
  unfold payFactor
  rw [hn₂]
  by_cases hp₁ : 0 < monthlyRate v₁
  · have hp₂ : 0 < monthlyRate v₂ := lt_of_lt_of_le hp₁ hρ₁₂
    rw [if_pos ⟨hp₁, hn₁⟩, if_pos ⟨hp₂, hn₁⟩,
      amort_eq_pow_div_geomSum hp₁, amort_eq_pow_div_geomSum hp₂]
    exact pow_div_geomSum_mono (le_of_lt hp₁) hρ₁₂ hn₁
  · have hz₁ : ¬ (0 < monthlyRate v₁ ∧ 0 < totalPayments v₁) := by
      intro h
      exact hp₁ h.1
    rw [if_neg hz₁, if_pos hn₁]
    by_cases hp₂ : 0 < monthlyRate v₂
    · rw [if_pos ⟨hp₂, hn₁⟩, amort_eq_pow_div_geomSum hp₂]
      exact one_div_le_pow_div_geomSum (le_of_lt hp₂) hn₁
    · have hz₂ : ¬ (0 < monthlyRate v₂ ∧ 0 < totalPayments v₁) := by
        intro h
        exact hp₂ h.1
      rw [if_neg hz₂]

/-- Claim C10: with the debt, the salary and a positive term held fixed, a
larger non-negative interest rate never decreases the monthly payment. -/
theorem monotone_in_interestRate (v₁ v₂ : DebtInput)
    (hd : v₁.totalDebt = v₂.totalDebt) (hd₀ : 0 ≤ v₁.totalDebt)
    (hs : v₁.annualSalary = v₂.annualSalary)
    (ht : v₁.repaymentTerm = v₂.repaymentTerm) (htpos : 0 < v₁.repaymentTerm)
    (hr₁ : 0 ≤ v₁.interestRate) (hr₁₂ : v₁.interestRate ≤ v₂.interestRate) :
    monthlyPayment v₁ ≤ monthlyPayment v₂ := by
  rw [monthlyPayment_eq_debt_mul_payFactor, monthlyPayment_eq_debt_mul_payFactor,
    ← hd]
  exact mul_le_mul_of_nonneg_left (payFactor_mono v₁ v₂ ht htpos hr₁ hr₁₂) hd₀

/-- Witness for C10: raising the rate from 0 to 6.5 percent on the default
debt, salary and term. -/
theorem monotone_in_interestRate_witness :
    monthlyPayment ⟨45000, 55000, 0, 10⟩ ≤
      monthlyPayment ⟨45000, 55000, 13/2, 10⟩ :=
  monotone_in_interestRate ⟨45000, 55000, 0, 10⟩ ⟨45000, 55000, 13/2, 10⟩
    rfl (by norm_num) rfl rfl (by norm_num) (by norm_num) (by norm_num)
